import Mathlib

/-!
Shallow embedding of the `discord.ext.voice_record` recording pipeline
(files `filter.py`, `opus.py`, `tree.py`, `sink.py`, `gateway.py`, `enums.py`,
`errors.py`).  Byte strings are `List Nat`, Python dicts are association
lists (`List (key × value)`, first binding wins), and raised exceptions are
`Except.error` values of the `Err` type below.  Coroutine loops that may not
terminate are given explicit fuel and return `none` when the fuel runs out
while the loop is still spinning.
-/

namespace VoiceRecord

/-- Python `enums.FilterStatus`: recording = 0, stopped = 1, paused = 2. -/
inductive FilterStatus
  | recording
  | stopped
  | paused
deriving DecidableEq, Repr

/-- The exceptions the embedded code can raise.  `alreadyRecording` and
`notRecording` are the classes from `errors.py`; the remaining constructors
stand for Python runtime exceptions raised by slips in the code
(`ValueError` from a failed tuple unpack or `list.remove`, `AttributeError`
from a missing attribute, `nacl.exceptions.CryptoError` from a failed AEAD
authentication, `TypeError` from calling native code on a non-bytes value). -/
inductive Err
  | alreadyRecording
  | notRecording
  | valueError
  | attributeError
  | cryptoError
  | typeError
deriving DecidableEq, Repr

/-- Lookup in an association list modelling a Python dict (first binding wins;
insertion keeps dict-like key uniqueness because callers only append a key
after a failed lookup). -/
def alookup (m : List (Nat × α)) (k : Nat) : Option α :=
  (m.find? (fun p => p.1 == k)).map Prod.snd

/-- Python `d[k] = v` on a dict modelled as an association list: replaces the first
binding of `k`, or appends a new one. -/
def aupdate (m : List (Nat × α)) (k : Nat) (v : α) : List (Nat × α) :=
  match m with
  | [] => [(k, v)]
  | (k', v') :: rest =>
      if k' == k then (k, v) :: rest else (k', v') :: aupdate rest k v

/-- The mutable attributes of a `UserFilter` (filter.py lines 83–95).
`user_audio_data` maps a resolved user id (Snowflake) to the contents of that
user's `io.BytesIO` buffer; `user_audio_timestamp` maps an ssrc to the last
RTP timestamp seen from it. -/
structure UserFilterState where
  filtered_user : List Nat
  user_audio_data : List (Nat × List Nat)
  user_audio_timestamp : List (Nat × Nat)
  recoding : Bool
  paused : Bool
deriving DecidableEq, Repr

/-- Python `UserFilter.status` (filter.py lines 97–113): checks `_recoding` first,
then `_paused`, else stopped. -/
def status (s : UserFilterState) : FilterStatus :=
  if s.recoding then FilterStatus.recording
  else if s.paused then FilterStatus.paused
  else FilterStatus.stopped

/-- Python `UserFilter.toggle_pause` (filter.py lines 115–127): raises NotRecording
unless `_recoding`, else flips `_paused`. -/
def togglePause (s : UserFilterState) : Except Err UserFilterState :=
  if !s.recoding then Except.error Err.notRecording
  else Except.ok { s with paused := !s.paused }

/-- Python `UserFilter.add_user` (filter.py lines 129–149): raises AlreadyRecording
while `_recoding`, else appends `user.id` to the `filtered_user` list. -/
def addUser (s : UserFilterState) (uid : Nat) : Except Err UserFilterState :=
  if s.recoding then Except.error Err.alreadyRecording
  else Except.ok { s with filtered_user := s.filtered_user ++ [uid] }

/-- Python `UserFilter.remove_user` (filter.py lines 151–171): raises AlreadyRecording
while `_recoding`, else `list.remove` deletes the first occurrence of
`user.id`, raising ValueError when it is absent. -/
def removeUser (s : UserFilterState) (uid : Nat) : Except Err UserFilterState :=
  if s.recoding then Except.error Err.alreadyRecording
  else if uid ∈ s.filtered_user then
    Except.ok { s with filtered_user := s.filtered_user.erase uid }
  else Except.error Err.valueError

/-- FilterMembership as the spec's §3 data model defines it: the collection of
user identifiers currently in the filter (the Python `filtered_user` list,
viewed up to order). -/
def filterMembership (s : UserFilterState) : Multiset Nat :=
  (s.filtered_user : Multiset Nat)

/-- C5: `toggle_pause` from Recording sets the `_paused` flag, yet the
`status` property still reports `recording`, because `status` tests
`_recoding` before `_paused` and `toggle_pause` never clears `_recoding`.
So the observable status after one call from Recording is `recording`,
not `paused` as the claim (and the `status` docstring) state; the
Paused → Recording flip and the NotRecording failure from Stopped do hold. -/
theorem toggle_pause_status_bug :
    togglePause ⟨[], [], [], true, false⟩ = Except.ok ⟨[], [], [], true, true⟩ ∧
    status ⟨[], [], [], true, true⟩ = FilterStatus.recording ∧
    status ⟨[], [], [], true, true⟩ ≠ FilterStatus.paused ∧
    togglePause ⟨[], [], [], true, true⟩ = Except.ok ⟨[], [], [], true, false⟩ ∧
    togglePause ⟨[], [], [], false, false⟩ = Except.error Err.notRecording := by
  refine ⟨rfl, rfl, ?_, rfl, rfl⟩
  decide

/-- C9: while Stopped (`_recoding = false`), `add_user u` then `remove_user u`
succeed and leave the filter membership (the multiset, hence the set, of
filtered user ids) unchanged; while Recording both calls raise
AlreadyRecording before touching any state. -/
theorem add_remove_membership (s : UserFilterState) (uid : Nat) :
    (s.recoding = false →
      ∃ s₁ s₂, addUser s uid = Except.ok s₁ ∧ removeUser s₁ uid = Except.ok s₂ ∧
        filterMembership s₂ = filterMembership s ∧ s₂.recoding = s.recoding ∧
        s₂.paused = s.paused ∧ s₂.user_audio_data = s.user_audio_data) ∧
    (s.recoding = true →
      addUser s uid = Except.error Err.alreadyRecording ∧
      removeUser s uid = Except.error Err.alreadyRecording) := by
  constructor
  · intro h
    refine ⟨{ s with filtered_user := s.filtered_user ++ [uid] },
      { s with filtered_user := (s.filtered_user ++ [uid]).erase uid }, ?_, ?_, ?_, rfl, rfl, rfl⟩
    · simp [addUser, h]
    · simp [removeUser, h]
    · show ((s.filtered_user ++ [uid]).erase uid : Multiset Nat) = _
      simp only [filterMembership]
      rw [← Multiset.coe_erase, ← Multiset.coe_add, Multiset.coe_singleton, add_comm,
        Multiset.singleton_add, Multiset.erase_cons_head]
  · intro h
    exact ⟨by simp [addUser, h], by simp [removeUser, h]⟩

/-- Witness for `add_remove_membership` at a concrete state: filter `[7, 9]`,
add then remove user `7` while stopped. -/
theorem add_remove_membership_witness :
    ∃ s₁ s₂, addUser ⟨[7, 9], [], [], false, false⟩ 7 = Except.ok s₁ ∧
      removeUser s₁ 7 = Except.ok s₂ ∧
      filterMembership s₂ = filterMembership ⟨[7, 9], [], [], false, false⟩ ∧
      s₂.recoding = false ∧ s₂.paused = false ∧ s₂.user_audio_data = [] :=
  (add_remove_membership ⟨[7, 9], [], [], false, false⟩ 7).1 rfl

/-! Section: Opus constants (`opus.py`, class `OpusStruct`, lines 366–373) -/

namespace OpusStruct

def SAMPLING_RATE : Nat := 48000

def CHANNELS : Nat := 2

def FRAME_LENGTH : Nat := 20

/-- Python `struct.calcsize("h") * CHANNELS` = 2 * 2. -/
def SAMPLE_SIZE : Nat := 2 * CHANNELS

def SAMPLES_PER_FRAME : Nat := SAMPLING_RATE / 1000 * FRAME_LENGTH

def FRAME_SIZE : Nat := SAMPLES_PER_FRAME * SAMPLE_SIZE

end OpusStruct

/-! Section: Decryption (`opus.py`, class `Xsalsa20Decrypt`, lines 542–576) -/

/-- The external PyNaCl primitive `nacl.secret.SecretBox(key).decrypt(ct, nonce)`:
it returns the plaintext when the Poly1305 authenticator verifies, and raises
`nacl.exceptions.CryptoError` otherwise.  We abstract the box (key included)
as an oracle from nonce and ciphertext to `Option` plaintext, with `none`
standing for an authentication failure; the callers below turn a `none` into
the raised `Err.cryptoError`, and none of them catches it. -/
structure SecretBoxOracle where
  open_ : List Nat → List Nat → Option (List Nat)

/-- Python `Xsalsa20Decrypt.strip_header_ext` (opus.py lines 545–551): when the
plaintext starts `0xBE 0xDE` and is longer than 4 bytes, drop the RTP header
extension: 4 bytes plus 4 bytes per extension word, the word count read
big-endian from bytes 2–3.  (Python would raise IndexError on an input of
fewer than two bytes; no claim exercises that.) -/
def strip_header_ext (data : List Nat) : List Nat :=
  if data.take 2 = [0xBE, 0xDE] ∧ 4 < data.length then
    data.drop (4 + (data.getD 2 0 * 256 + data.getD 3 0) * 4)
  else data

/-- Python `Xsalsa20Decrypt._decrypt_xsalsa20_poly1305` (opus.py lines 553–559):
nonce = 24-byte buffer whose first 12 bytes are the packet header. -/
def decrypt_xsalsa20_poly1305 (box : SecretBoxOracle) (header data : List Nat) :
    Except Err (List Nat) :=
  let nonce := header ++ List.replicate (24 - header.length) 0
  match box.open_ nonce data with
  | some pt => Except.ok (strip_header_ext pt)
  | none => Except.error Err.cryptoError

/-- Python `Xsalsa20Decrypt._decrypt_xsalsa20_poly1305_suffix` (opus.py lines
561–567): the nonce is the final 24 bytes of the payload, the ciphertext is
the rest. -/
def decrypt_xsalsa20_poly1305_suffix (box : SecretBoxOracle) (_header data : List Nat) :
    Except Err (List Nat) :=
  let nonce := data.drop (data.length - 24)
  match box.open_ nonce (data.take (data.length - 24)) with
  | some pt => Except.ok (strip_header_ext pt)
  | none => Except.error Err.cryptoError

/-- Python `Xsalsa20Decrypt._decrypt_xsalsa20_poly1305_lite` (opus.py lines 569–576):
nonce = 24-byte buffer whose first 4 bytes are the payload's trailing 4
bytes; the ciphertext excludes those. -/
def decrypt_xsalsa20_poly1305_lite (box : SecretBoxOracle) (_header data : List Nat) :
    Except Err (List Nat) :=
  let nonce := data.drop (data.length - 4) ++ List.replicate 20 0
  match box.open_ nonce (data.take (data.length - 4)) with
  | some pt => Except.ok (strip_header_ext pt)
  | none => Except.error Err.cryptoError

/-- The three negotiated mode strings dispatched by
`FilteredDataPack.decrypted_data` via `getattr(..., f"_decrypt_{mode}")`. -/
inductive CryptMode
  | xsalsa20_poly1305
  | xsalsa20_poly1305_suffix
  | xsalsa20_poly1305_lite
deriving DecidableEq, Repr

/-! Section: `FilteredDataPack` (filter.py lines 330–353) -/

/-- Python `FilteredDataPack`: wraps the raw datagram.  `header` is the first 12
bytes, `body` (the Python `data` property) the rest.  `__init__` parses
`">xxHII"` from the header: 2 pad bytes, `sequence` u16, `timestamp` u32,
`ssrc` u32, all big-endian (Python raises struct.error below 12 bytes; the
claims use full-size packets). -/
structure FilteredDataPack where
  raw : List Nat
deriving DecidableEq, Repr

def FilteredDataPack.header (p : FilteredDataPack) : List Nat := p.raw.take 12

def FilteredDataPack.body (p : FilteredDataPack) : List Nat := p.raw.drop 12

def FilteredDataPack.sequence (p : FilteredDataPack) : Nat :=
  p.raw.getD 2 0 * 256 + p.raw.getD 3 0

def FilteredDataPack.timestamp (p : FilteredDataPack) : Nat :=
  ((p.raw.getD 4 0 * 256 + p.raw.getD 5 0) * 256 + p.raw.getD 6 0) * 256 + p.raw.getD 7 0

def FilteredDataPack.ssrc (p : FilteredDataPack) : Nat :=
  ((p.raw.getD 8 0 * 256 + p.raw.getD 9 0) * 256 + p.raw.getD 10 0) * 256 + p.raw.getD 11 0

/-- Python `FilteredDataPack.decrypted_data` (filter.py lines 350–353). -/
def FilteredDataPack.decrypted_data (p : FilteredDataPack) (box : SecretBoxOracle)
    (mode : CryptMode) : Except Err (List Nat) :=
  match mode with
  | CryptMode.xsalsa20_poly1305 => decrypt_xsalsa20_poly1305 box p.header p.body
  | CryptMode.xsalsa20_poly1305_suffix => decrypt_xsalsa20_poly1305_suffix box p.header p.body
  | CryptMode.xsalsa20_poly1305_lite => decrypt_xsalsa20_poly1305_lite box p.header p.body

/-- Python `UserFilter.unpack_audio_packet` (filter.py lines 231–259): returns with
no effect on an RTCP packet (second byte in 200..204) or while paused;
otherwise builds a `FilteredDataPack` and calls `decrypted_data` for the
frame-of-silence comparison.  None of the decrypt call's exceptions is
caught, so an authentication failure propagates to the caller — modelled as
the `Except.error` outcome.  (Note: the function body ends after the silence
check; no branch enqueues anything for decoding.) -/
def unpack_audio_packet (box : SecretBoxOracle) (mode : CryptMode)
    (s : UserFilterState) (data : List Nat) : Except Err Unit :=
  if 200 ≤ data.getD 1 0 ∧ data.getD 1 0 ≤ 204 then Except.ok ()
  else if s.paused then Except.ok ()
  else
    match (FilteredDataPack.mk data).decrypted_data box mode with
    | Except.ok _ => Except.ok ()
    | Except.error e => Except.error e

/-- A box whose authenticator always rejects, as happens for any packet
forged or corrupted in transit. -/
def rejectAllBox : SecretBoxOracle := ⟨fun _ _ => none⟩

/-- A concrete 16-byte datagram: 12-byte RTP header (second byte 0, so not in
the RTCP range 200..204) plus a 4-byte encrypted payload. -/
def samplePacket : List Nat :=
  [0x80, 0x78, 0, 1, 0, 0, 0x03, 0xE8, 0, 0, 0, 1, 9, 9, 9, 9]

/-- C3 counterexample: a wire packet whose AEAD authentication fails does
*not* produce an absent payload with the frame silently dropped — the
`CryptoError` raised by `box.decrypt` propagates out of
`unpack_audio_packet` (no handler exists on the path), refuting the claim at
this concrete input. -/
theorem unpack_audio_packet_cryptoerror_escapes :
    unpack_audio_packet rejectAllBox CryptMode.xsalsa20_poly1305
      ⟨[], [], [], true, false⟩ samplePacket = Except.error Err.cryptoError := rfl

/-- C3 amended: for every non-RTCP packet processed while not paused, under
any mode, when the AEAD authenticator rejects (the box returns no plaintext),
the `CryptoError` raised inside the `Xsalsa20Decrypt` method propagates past
`unpack_audio_packet` to its caller; the frame produces no state change, but
the failure is an escaping exception rather than a silently dropped frame. -/
theorem unpack_audio_packet_propagates_auth_failure (box : SecretBoxOracle)
    (mode : CryptMode) (s : UserFilterState) (data : List Nat)
    (hb : ∀ n c, box.open_ n c = none)
    (hr : ¬(200 ≤ data.getD 1 0 ∧ data.getD 1 0 ≤ 204))
    (hp : s.paused = false) :
    unpack_audio_packet box mode s data = Except.error Err.cryptoError := by
  unfold unpack_audio_packet
  rw [if_neg hr, if_neg (by simp [hp])]
  cases mode <;>
    simp [FilteredDataPack.decrypted_data, decrypt_xsalsa20_poly1305,
      decrypt_xsalsa20_poly1305_suffix, decrypt_xsalsa20_poly1305_lite, hb]

/-- Witness for `unpack_audio_packet_propagates_auth_failure` at a concrete
packet, box and state. -/
theorem unpack_audio_packet_propagates_auth_failure_witness :
    unpack_audio_packet rejectAllBox CryptMode.xsalsa20_poly1305_lite
      ⟨[], [], [], true, false⟩ samplePacket = Except.error Err.cryptoError :=
  unpack_audio_packet_propagates_auth_failure rejectAllBox
    CryptMode.xsalsa20_poly1305_lite ⟨[], [], [], true, false⟩ samplePacket
    (fun _ _ => rfl) (by decide) rfl

/-! Section: `DecodeManager` (opus.py lines 579–618) -/

/-- The mutable attributes of a `DecodeManager`: the frame queue (`decode_queue`),
the set of ssrcs holding a live `Decoder` handle (`_decoder` keys), and the
`_end_thread` asyncio event. -/
structure DecodeManagerState where
  decode_queue : List FilteredDataPack
  decoders : List Nat
  end_thread : Bool
deriving DecidableEq, Repr

/-- Python `DecodeManager.start` (opus.py lines 592–610): `while not
self._end_thread.is_set():` pop the queue head (on IndexError just loop
again), then decode and dispatch.  Nothing in the body sets `_end_thread`
(only `DecodeManager.stop` does).  On a non-empty queue the body reads
`data.decrypted_data` — the *bound method*, which is never `None` — and hands
it to `Decoder.decode`, whose native pointer call rejects a non-bytes
argument with a TypeError that the `except OpusError` clause does not catch,
so the loop exits exceptionally.  The run is fuel-indexed: `none` means the
fuel ran out with the loop still spinning. -/
def decodeStartLoop : Nat → DecodeManagerState → Option (Except Err DecodeManagerState)
  | 0, _ => none
  | fuel + 1, s =>
    if s.end_thread then some (Except.ok s)
    else
      match s.decode_queue with
      | [] => decodeStartLoop fuel s
      | _ :: _ => some (Except.error Err.typeError)

/-- Python `UserFilter.start` (filter.py lines 173–198): raises AlreadyRecording
while `_recoding`; otherwise drains the socket backlog (`_empty_socket`, an
external effect), dispatches `record_ready`, builds a *fresh* `DecodeManager`
(empty queue, no decoders, `_end_thread` clear) and `await`s its `start()`
coroutine inline.  Only after that await returns would `self._recoding =
True` run.  Returns `none` while still inside the awaited worker loop. -/
def start (fuel : Nat) (s : UserFilterState) :
    Option (Except Err (UserFilterState × DecodeManagerState)) :=
  if s.recoding then some (Except.error Err.alreadyRecording)
  else
    match decodeStartLoop fuel ⟨[], [], false⟩ with
    | none => none
    | some (Except.error e) => some (Except.error e)
    | some (Except.ok dm) => some (Except.ok ({ s with recoding := true }, dm))

/-- With the end flag clear and nothing queued, the worker loop spins forever:
no iteration can set the flag, and the fresh manager's queue can never gain
an element because the only producer path would have to run after `start`
returns. -/
theorem decodeStartLoop_spins (d : List Nat) :
    ∀ fuel : Nat, decodeStartLoop fuel ⟨[], d, false⟩ = none := by
  intro fuel
  induction fuel with
  | zero => rfl
  | succ n ih => simpa [decodeStartLoop] using ih

/-- C4: `start` called while Stopped never transitions the session to
Recording and never returns control to its caller: `await
self._decoder.start()` runs the worker loop inline, and with `_end_thread`
clear and the fresh queue empty the loop never terminates, so the
`self._recoding = True` line is unreachable (for every fuel bound the run is
still inside the loop).  `start` while already recording does raise
AlreadyRecording as claimed. -/
theorem start_never_returns (fuel : Nat) (fu : List Nat)
    (uad : List (Nat × List Nat)) (uat : List (Nat × Nat)) (p : Bool) :
    start fuel ⟨fu, uad, uat, false, p⟩ = none ∧
    start fuel ⟨fu, uad, uat, true, p⟩ = some (Except.error Err.alreadyRecording) := by
  constructor
  · simp [start, decodeStartLoop_spins]
  · simp [start]

/-- C6: `DecodeManager.stop` (opus.py lines 612–618): `while
bool(self.decode_queue):` sleep, then `self._decoder.clear()`; after the loop
`self._end_thread.set()`.  The decoder clearing is *inside* the drain-wait
loop: it runs only while frames are still queued, and never when the queue is
already empty.  Nothing in `stop` itself consumes the queue; in this
sequential model (the worker cannot run, see `start_never_returns`) a
non-empty queue loops forever, which the fuel bound renders as `none`. -/
def decodeStop : Nat → DecodeManagerState → Option DecodeManagerState
  | 0, _ => none
  | fuel + 1, s =>
    if s.decode_queue = [] then some { s with end_thread := true }
    else decodeStop fuel { s with decoders := [] }

/-- C6: on a stop with an empty queue the decoder handles are *not* released
(the clear is skipped with the loop body), contradicting "on every stop all
decoder handles that exist are released"; and when frames are still queued,
one loop iteration clears the handles while the queue is untouched,
contradicting "none is released while undecoded frames remain". -/
theorem decode_stop_bug :
    decodeStop 1 ⟨[], [7, 8], false⟩ = some ⟨[], [7, 8], true⟩ ∧
    decodeStop 2 ⟨[FilteredDataPack.mk [1]], [7, 8], false⟩ =
      decodeStop 1 ⟨[FilteredDataPack.mk [1]], [], false⟩ ∧
    decodeStop 2 ⟨[FilteredDataPack.mk [1]], [7, 8], false⟩ = none := by
  refine ⟨rfl, rfl, rfl⟩

/-! Section: Stream synchronizer and per-user aggregator
(`UserFilter.receive_decoded_packet`, filter.py lines 292–327) -/

/-- Lines 293–303: the silence count.  On the first frame from an ssrc
(`ssrc not in self._user_audio_timestamp`) it is 0; afterwards it is
`timestamp - last_timestamp - 960`, computed on Python's unbounded ints, so
it can be negative. -/
def silenceGap (tsMap : List (Nat × Nat)) (ssrc timestamp : Nat) : Int :=
  match alookup tsMap ssrc with
  | none => 0
  | some last => (timestamp : Int) - (last : Int) - 960

/-- Lines 305–309: `decoded_data = struct.pack("<h", 0) * silence *
OpusStruct.CHANNELS + packed_data.decrypted_data(mode=...)`.
`struct.pack("<h", 0)` is two zero bytes; Python's `bytes * n` is empty for
`n ≤ 0`, which `Int.toNat` reproduces.  `pcm` is the value of the
`decrypted_data(mode=...)` call. -/
def decodedData (tsMap : List (Nat × Nat)) (ssrc timestamp : Nat) (pcm : List Nat) :
    List Nat :=
  List.replicate (2 * (silenceGap tsMap ssrc timestamp).toNat * OpusStruct.CHANNELS) 0 ++ pcm

/-- Lines 310–311: `while packed_data.ssrc not in ssrc_map: await
asyncio.sleep(0.05)` — a poll every 0.05 s.  `resolved k` tells whether the
ssrc is in `ssrc_map` at the k-th poll; `sess k` tells whether the session
has already ended then.  The loop condition consults only the resolution map
— the session state is deliberately passed and ignored, as the code ignores
it.  Fuel-indexed: `some m` means the loop exited at poll `m`, `none` that it
was still polling when the fuel ran out. -/
def waitResolve (resolved sess : Nat → Bool) : Nat → Nat → Option Nat
  | 0, _ => none
  | fuel + 1, k => if resolved k then some k else waitResolve resolved sess fuel (k + 1)

/-- Python `UserFilter.receive_decoded_packet` (filter.py lines 292–327): update the
per-ssrc timestamp, build `decoded_data`, wait for the ssrc to resolve
(modelled here with the map already fixed: an unresolved ssrc blocks, giving
`none`), then — only when the resolved user id has no buffer yet — create the
fresh `io.BytesIO` and write `decoded_data` into it.  The `bytes_file.write`
call sits inside the `if ... not in self._user_audio_data.keys()` block, so
nothing at all is written for a user whose buffer already exists. -/
def receive_decoded_packet (s : UserFilterState) (ssrcMap : List (Nat × Nat))
    (ssrc timestamp : Nat) (pcm : List Nat) : Option UserFilterState :=
  let decoded := decodedData s.user_audio_timestamp ssrc timestamp pcm
  let s1 : UserFilterState :=
    { s with user_audio_timestamp := aupdate s.user_audio_timestamp ssrc timestamp }
  match alookup ssrcMap ssrc with
  | none => none
  | some userId =>
    if alookup s1.user_audio_data userId = none then
      some { s1 with user_audio_data := s1.user_audio_data ++ [(userId, decoded)] }
    else some s1

/-- Updating a key and reading it back yields the written value. -/
theorem alookup_aupdate (m : List (Nat × α)) (k : Nat) (v : α) :
    alookup (aupdate m k v) k = some v := by
  induction m with
  | nil => simp [alookup, aupdate]
  | cons p rest ih =>
    rcases p with ⟨k', v'⟩
    by_cases h : k' = k
    · simp [aupdate, alookup, h]
    · simp only [aupdate]
      rw [if_neg (by simpa using h)]
      simpa [alookup, List.find?_cons, h] using ih

/-- C7: the synchronizer arithmetic of `receive_decoded_packet`.  On the
first frame from an ssrc no silence is prepended; on a subsequent frame with
previous timestamp `last`, exactly `gap = timestamp - last - 960` zero
samples per channel (`gap * SAMPLE_SIZE` zero bytes) are prepended when
`gap > 0` and nothing when `gap ≤ 0`; and in both cases the stored
last-timestamp becomes the current frame's timestamp. -/
theorem sync_silence (tsMap : List (Nat × Nat)) (ssrc ts : Nat) (pcm : List Nat) :
    (alookup tsMap ssrc = none → decodedData tsMap ssrc ts pcm = pcm) ∧
    (∀ last, alookup tsMap ssrc = some last →
      decodedData tsMap ssrc ts pcm =
        List.replicate (((ts : Int) - last - 960).toNat * OpusStruct.SAMPLE_SIZE) 0 ++ pcm ∧
      ((ts : Int) - last - 960 ≤ 0 → decodedData tsMap ssrc ts pcm = pcm)) ∧
    alookup (aupdate tsMap ssrc ts) ssrc = some ts := by
  refine ⟨?_, ?_, alookup_aupdate tsMap ssrc ts⟩
  · intro h
    simp [decodedData, silenceGap, h]
  · intro last h
    constructor
    · simp only [decodedData, silenceGap, h]
      congr 1
      congr 1
      have : OpusStruct.SAMPLE_SIZE = 2 * OpusStruct.CHANNELS := rfl
      rw [this]
      ring
    · intro hle
      simp [decodedData, silenceGap, h, Int.toNat_of_nonpos hle]

/-- Witness for `sync_silence`: the spec's instance — timestamps `[1000,
2920]` for one ssrc, frame duration 960 — yields exactly 960 samples
(`960 * SAMPLE_SIZE` zero bytes) of silence before the second frame's PCM,
and the recorded timestamp becomes 2920. -/
theorem sync_silence_witness :
    decodedData [(1, 1000)] 1 2920 [9] =
      List.replicate (960 * OpusStruct.SAMPLE_SIZE) 0 ++ [9] ∧
    alookup (aupdate [(1, 1000)] 1 2920) 1 = some 2920 := by
  have h := sync_silence [(1, 1000)] 1 2920 [9]
  have h2 := (h.2.1 1000 rfl).1
  refine ⟨?_, h.2.2⟩
  rw [h2]
  norm_num
  exact Or.inl rfl

/-- C2 (failing): the aggregator writes a user's buffer only when creating
it.  Two resolved frames from ssrc 1 (user 42): the first creates the buffer
holding its PCM `[1, 1]`; the second (timestamp 1960 = 1000 + 960, gap 0)
leaves the buffer exactly `[1, 1]` — its PCM `[2, 2]` is discarded instead of
appended, because the `bytes_file.write` only executes inside the
buffer-creation branch. -/
theorem second_frame_pcm_dropped :
    receive_decoded_packet ⟨[], [], [], true, false⟩ [(1, 42)] 1 1000 [1, 1] =
      some ⟨[], [(42, [1, 1])], [(1, 1000)], true, false⟩ ∧
    receive_decoded_packet ⟨[], [(42, [1, 1])], [(1, 1000)], true, false⟩
        [(1, 42)] 1 1960 [2, 2] =
      some ⟨[], [(42, [1, 1])], [(1, 1960)], true, false⟩ ∧
    alookup [(42, [1, 1])] 42 ≠ some ([1, 1] ++ [2, 2]) := by
  refine ⟨by decide, by decide, by decide⟩

/-- The resolution wait never ends for the given environments, whatever the
fuel and starting poll index. -/
def neverEnds (resolved sess : Nat → Bool) : Prop :=
  ∀ fuel k, waitResolve resolved sess fuel k = none

/-- C8 counterexample: with a source that never resolves and the session
ended from the very first poll, the wait loop never exits — its condition
reads only `ssrc_map`, so the session ending does not end the wait, refuting
"the wait ends ... when the session ends". -/
theorem wait_ignores_session_end : neverEnds (fun _ => false) (fun _ => true) := by
  intro fuel
  induction fuel with
  | zero => intro k; rfl
  | succ n ih => intro k; simpa [waitResolve] using ih (k + 1)

/-- If the wait loop has enough fuel to reach a poll at which the ssrc is
resolved, it exits at a resolved poll. -/
theorem waitResolve_terminates (resolved sess : Nat → Bool) :
    ∀ fuel k, (∃ j, j < fuel ∧ resolved (k + j) = true) →
      ∃ m, waitResolve resolved sess fuel k = some m ∧ resolved m = true := by
  intro fuel
  induction fuel with
  | zero =>
    intro k h
    obtain ⟨j, hj, _⟩ := h
    omega
  | succ f ih =>
    intro k h
    obtain ⟨j, hj, hr⟩ := h
    by_cases hk : resolved k = true
    · exact ⟨k, by simp [waitResolve, hk], hk⟩
    · have hj0 : j ≠ 0 := by
        rintro rfl
        exact hk (by simpa using hr)
      obtain ⟨m, hm, hrm⟩ := ih (k + 1)
        ⟨j - 1, by omega, by
          have hkj : k + 1 + (j - 1) = k + j := by omega
          rw [hkj]; exact hr⟩
      exact ⟨m, by simp [waitResolve, hk, hm], hrm⟩

/-- C8 amended: the wait on an unresolved ssrc polls at fixed 0.05 s
intervals and neither drops the frame nor raises; it ends exactly when
resolution succeeds — if the loop exits it exits at a resolved poll, and if
the ssrc is resolved at some poll `n` the loop exits by then — while the
session ending plays no part in the loop condition. -/
theorem wait_ends_iff_resolved (resolved sess : Nat → Bool) :
    (∀ fuel k m, waitResolve resolved sess fuel k = some m → resolved m = true) ∧
    (∀ n, resolved n = true →
      ∃ m, waitResolve resolved sess (n + 1) 0 = some m ∧ resolved m = true) := by
  constructor
  · intro fuel
    induction fuel with
    | zero => intro k m h; exact absurd h (by simp [waitResolve])
    | succ f ih =>
      intro k m h
      by_cases hk : resolved k = true
      · simp [waitResolve, hk] at h
        exact h ▸ hk
      · simp [waitResolve, hk] at h
        exact ih (k + 1) m h
  · intro n hn
    exact waitResolve_terminates resolved sess (n + 1) 0 ⟨n, by omega, by simpa using hn⟩

/-- A source that resolves at the third poll. -/
def resolvedAtTwo : Nat → Bool := fun n => n == 2

/-- Witness for `wait_ends_iff_resolved` at a concrete resolution history. -/
theorem wait_ends_iff_resolved_witness :
    ∃ m, waitResolve resolvedAtTwo (fun _ => false) 3 0 = some m ∧
      resolvedAtTwo m = true :=
  (wait_ends_iff_resolved resolvedAtTwo (fun _ => false)).2 2 rfl

/-! Section: `RecordFileTree` (tree.py lines 104–129) and `UserFilter.stop`
(filter.py lines 200–229) -/

/-- Python `RecordFileTree`: `_files` is a dict from user id (Snowflake) to a
`discord.File`, modelled here by the file's bytes. -/
structure RecordFileTree where
  _files : List (Nat × List Nat)
deriving DecidableEq, Repr

/-- Python `RecordFileTree.all` (tree.py lines 119–122): `self._files.values()
or None` — the empty values view is falsy, so an empty tree yields `None`
rather than an empty collection. -/
def RecordFileTree.all (t : RecordFileTree) : Option (List (List Nat)) :=
  if t._files = [] then none else some (t._files.map Prod.snd)

/-- Python `RecordFileTree.get` (tree.py lines 124–129):
`self._files.get(id, None)`. -/
def RecordFileTree.get (t : RecordFileTree) (id : Nat) : Option (List Nat) :=
  alookup t._files id

/-- C10: `RecordFileTree.all` returns `None` on an empty tree and the list of
all stored file values on a non-empty one; `RecordFileTree.get` returns
`None` for every id that has no stored file. -/
theorem record_file_tree_all_get (t : RecordFileTree) :
    (t._files = [] → t.all = none) ∧
    (t._files ≠ [] → t.all = some (t._files.map Prod.snd)) ∧
    (∀ id, (∀ p ∈ t._files, p.1 ≠ id) → t.get id = none) := by
  refine ⟨?_, ?_, ?_⟩
  · intro h
    simp [RecordFileTree.all, h]
  · intro h
    simp [RecordFileTree.all, h]
  · intro id h
    have hf : t._files.find? (fun p => p.1 == id) = none := by
      rw [List.find?_eq_none]
      intro p hp
      simpa using h p hp
    simp [RecordFileTree.get, alookup, hf]

/-- Witness for `record_file_tree_all_get` on an empty and a one-file tree. -/
theorem record_file_tree_witness :
    RecordFileTree.all ⟨[]⟩ = none ∧
    RecordFileTree.all ⟨[(1, [5])]⟩ = some [[5]] ∧
    RecordFileTree.get ⟨[(1, [5])]⟩ 2 = none := by
  refine ⟨(record_file_tree_all_get ⟨[]⟩).1 rfl, ?_, ?_⟩
  · simpa using (record_file_tree_all_get ⟨[(1, [5])]⟩).2.1 (by decide)
  · exact (record_file_tree_all_get ⟨[(1, [5])]⟩).2.2 2 (by decide)

/-- Iterating an `io.BytesIO` yields its contents split after each newline
byte (`0x0A`), the trailing fragment included when non-empty — this is what
tuple-unpacking a BytesIO iterates over. -/
def splitLinesAux : List Nat → List Nat → List (List Nat)
  | [], acc => if acc = [] then [] else [acc.reverse]
  | b :: rest, acc =>
    if b = 10 then (b :: acc).reverse :: splitLinesAux rest []
    else splitLinesAux rest (b :: acc)

/-- Line decomposition of a BytesIO buffer's contents. -/
def splitLines (content : List Nat) : List (List Nat) := splitLinesAux content []

/-- One entry of the dict comprehension in `stop` (filter.py lines 221–228):
`for snowflake, bytes_file in self._user_audio_data.values()` tuple-unpacks
each `io.BytesIO` *value* of the dict (iterating it yields its lines).
Unless the unpack produces exactly two items it raises ValueError; when it
does, evaluating `self._sink.format_audio` raises AttributeError, since the
sink classes (sink.py) define `format_data`, not `format_audio`.  Every
branch therefore raises. -/
def stopEntry (bufferBytes : List Nat) : Except Err (Nat × List Nat) :=
  match splitLines bufferBytes with
  | [_, _] => Except.error Err.attributeError
  | _ => Except.error Err.valueError

/-- The whole dict comprehension of `stop`, over the values of
`_user_audio_data` in order; the first raising entry aborts it. -/
def buildFiles : List (Nat × List Nat) → Except Err (List (Nat × List Nat))
  | [] => Except.ok []
  | (_, v) :: rest =>
    match stopEntry v with
    | Except.error e => Except.error e
    | Except.ok kv =>
      match buildFiles rest with
      | Except.error e => Except.error e
      | Except.ok others => Except.ok (kv :: others)

/-- Python `UserFilter.stop` (filter.py lines 200–229): raises NotRecording
unless `_recoding`; otherwise awaits `self._decoder.stop()` (which never
returns while frames are queued — fuel-indexed, `none` when still inside it),
clears the recording and pause flags, and builds the returned
`RecordFileTree` from the dict comprehension.  (In the source the flags are
cleared before the comprehension runs; an `Except.error` outcome models the
raised exception, under which no tree is returned.) -/
def stop (fuel : Nat) (s : UserFilterState) (dm : DecodeManagerState) :
    Option (Except Err (UserFilterState × DecodeManagerState × RecordFileTree)) :=
  if !s.recoding then some (Except.error Err.notRecording)
  else
    match decodeStop fuel dm with
    | none => none
    | some dm' =>
      match buildFiles s.user_audio_data with
      | Except.error e => some (Except.error e)
      | Except.ok files =>
        some (Except.ok ({ s with recoding := false, paused := false }, dm', ⟨files⟩))

/-- Every entry of the comprehension raises. -/
theorem stopEntry_isError (v : List Nat) : ∃ e, stopEntry v = Except.error e := by
  unfold stopEntry
  rcases splitLines v with _ | ⟨a, _ | ⟨b, _ | _⟩⟩ <;> exact ⟨_, rfl⟩

/-- C1: `stop` while Stopped does raise NotRecording (before any mutation),
but `stop` while Recording or Paused with at least one user's audio recorded
never returns a `RecordFileTree`: the comprehension tuple-unpacks
`_user_audio_data.values()` (each an `io.BytesIO`) and then looks up the
nonexistent sink method `format_audio`, so it raises on its first entry
(or `stop` is still stuck draining the decode queue). -/
theorem stop_bug (fuel : Nat) (s : UserFilterState) (dm : DecodeManagerState) :
    (s.recoding = false → stop fuel s dm = some (Except.error Err.notRecording)) ∧
    (s.recoding = true → s.user_audio_data ≠ [] →
      stop fuel s dm = none ∨ ∃ e, stop fuel s dm = some (Except.error e)) := by
  constructor
  · intro h
    simp [stop, h]
  · intro hr hd
    unfold stop
    rw [hr]
    simp only [Bool.not_true, Bool.false_eq_true, if_false]
    cases decodeStop fuel dm with
    | none => exact Or.inl rfl
    | some dm' =>
      rcases hdata : s.user_audio_data with _ | ⟨⟨k, v⟩, rest⟩
      · exact absurd hdata hd
      · obtain ⟨e, he⟩ := stopEntry_isError v
        refine Or.inr ⟨e, ?_⟩
        simp [hdata, buildFiles, he]

/-- Witness for `stop_bug`: stop while Stopped raises NotRecording, and stop
while Recording with user 42's buffer holding two PCM bytes fails to return a
tree. -/
theorem stop_bug_witness :
    stop 1 ⟨[], [], [], false, false⟩ ⟨[], [], false⟩ =
      some (Except.error Err.notRecording) ∧
    (stop 1 ⟨[], [(42, [1, 1])], [(1, 1000)], true, false⟩ ⟨[], [], false⟩ = none ∨
      ∃ e, stop 1 ⟨[], [(42, [1, 1])], [(1, 1000)], true, false⟩ ⟨[], [], false⟩ =
        some (Except.error e)) :=
  ⟨(stop_bug 1 ⟨[], [], [], false, false⟩ ⟨[], [], false⟩).1 rfl,
    (stop_bug 1 ⟨[], [(42, [1, 1])], [(1, 1000)], true, false⟩ ⟨[], [], false⟩).2
      rfl (by decide)⟩

end VoiceRecord
